import Mathlib

/-!
A shallow embedding of the multi-agent ESG synthesis pipeline of
`backend/services/agent_service.py` and `backend/services/groq_service.py`:
the news-analysis stage, the model-interpretation stage, the
orchestration/synthesis stage, and the pipeline runner, together with
theorems about their behaviour.

Modelling conventions:
* A Python dict with a fixed key set becomes a structure; a key that is
  present only on some code paths becomes an `Option` field
  (`none` = key absent from the returned dict).
* `d.get(k, default)` becomes an `Option`-valued getter plus `Option.getD`;
  `d[k]` on a possibly missing key becomes an `Except` access (`KeyError`).
* Numeric score values are `Rat`.  Binary floating point is not modelled:
  the decimal-digit details of Python `format` calls never matter to any
  theorem below, so `formatPercent` uses exact rational rounding.
* The torch network, scaler and checkpoint are external binary artifacts
  (outside the repository's source tree), so the interpretation stage is
  embedded from the point where the code consumes their outputs: the
  softmax probability vector (or the caught inference exception) is an
  environment input, and everything after it follows the source.
* `async` functions carry no concurrency here (the pipeline awaits each
  stage in sequence), so they are embedded as plain functions; a Python
  exception escaping a function is `Except.error`.
-/

namespace ESGAgents

/-- A news article as consumed by `NewsAnalysisAgent.process`: a Python dict
whose `title` and `description` keys may be absent (`none`). -/
structure Article where
  title : Option String
  description : Option String
  deriving DecidableEq

/-- `(article.get("description") or "").lower()`: per-character
lowercasing of the description (ASCII, which covers every keyword the
stage compares against). -/
def descLower (a : Article) : String :=
  String.mk ((a.description.getD "").data.map Char.toLower)

/-- `article["title"]`: raises `KeyError` when the key is absent. -/
def getTitle (a : Article) : Except String String :=
  match a.title with
  | some t => Except.ok t
  | none => Except.error "KeyError: \x27title\x27"

/-- The fixed environmental keyword list (agent_service.py line 74). -/
def environmental_keywords : List String :=
  ["carbon", "emissions", "climate", "renewable", "pollution", "waste"]

/-- The fixed social keyword list (line 75). -/
def social_keywords : List String :=
  ["diversity", "labor", "community", "safety", "human rights", "employee"]

/-- The fixed governance keyword list (line 76). -/
def governance_keywords : List String :=
  ["board", "ethics", "compliance", "transparency", "corruption", "audit"]

/-- The fixed controversy keyword list (line 77). -/
def controversy_keywords : List String :=
  ["lawsuit", "scandal", "investigation", "violation", "fine", "penalty"]

/-- `any(kw in (a.get("description") or "").lower() for kw in kws)`:
Python substring containment is infix containment of the character lists. -/
def matchesAny (kws : List String) (a : Article) : Bool :=
  kws.any fun kw => decide (kw.data <:+: (descLower a).data)

/-- The articles whose description matches an environmental keyword. -/
def env_articles (articles : List Article) : List Article :=
  articles.filter (matchesAny environmental_keywords)

/-- The articles whose description matches a social keyword. -/
def social_articles (articles : List Article) : List Article :=
  articles.filter (matchesAny social_keywords)

/-- The articles whose description matches a governance keyword. -/
def gov_articles (articles : List Article) : List Article :=
  articles.filter (matchesAny governance_keywords)

/-- The articles whose description matches a controversy keyword. -/
def controversy_articles (articles : List Article) : List Article :=
  articles.filter (matchesAny controversy_keywords)

/-- `"positive" if not controversy_articles else "negative" if
len(controversy_articles) > 2 else "mixed"` (line 90). -/
def sentimentOf (articles : List Article) : String :=
  if (controversy_articles articles).isEmpty then "positive"
  else if 2 < (controversy_articles articles).length then "negative"
  else "mixed"

/-- One entry of `key_themes`. -/
structure Theme where
  theme : String
  count : Nat
  examples : List String
  deriving DecidableEq

/-- The dict returned by `NewsAnalysisAgent.process`.  The empty-input
branch omits the `total_articles` and `controversy_count` keys, hence the
`Option` types. -/
structure NewsResult where
  agent : String
  summary : String
  key_themes : List Theme
  sentiment : String
  risk_indicators : List String
  total_articles : Option Nat
  controversy_count : Option Nat
  deriving DecidableEq

namespace NewsAnalysisAgent

/-- `NewsAnalysisAgent.process` (agent_service.py lines 61-108).
Raises (`Except.error`) exactly where the Python raises: the `a["title"]`
accesses in the theme examples and the risk indicators. -/
def process (company_name : String) (articles : List Article) :
    Except String NewsResult :=
  if articles.isEmpty then
    Except.ok
      { agent := "ESG News Analyst"
        summary := "No recent news available for analysis."
        key_themes := []
        sentiment := "neutral"
        risk_indicators := []
        total_articles := none
        controversy_count := none }
  else do
    let envEx ← ((env_articles articles).take 2).mapM getTitle
    let socEx ← ((social_articles articles).take 2).mapM getTitle
    let govEx ← ((gov_articles articles).take 2).mapM getTitle
    let key_themes : List Theme :=
      (if (env_articles articles).isEmpty then [] else
        [{ theme := "Environmental", count := (env_articles articles).length,
           examples := envEx }])
      ++ (if (social_articles articles).isEmpty then [] else
        [{ theme := "Social", count := (social_articles articles).length,
           examples := socEx }])
      ++ (if (gov_articles articles).isEmpty then [] else
        [{ theme := "Governance", count := (gov_articles articles).length,
           examples := govEx }])
    let sentiment := sentimentOf articles
    let indTitles ← ((controversy_articles articles).take 3).mapM getTitle
    let risk_indicators :=
      if (controversy_articles articles).isEmpty then []
      else indTitles.map fun t => "Controversy detected: " ++ t
    Except.ok
      { agent := "ESG News Analyst"
        summary := "Analyzed " ++ toString articles.length
          ++ " ESG-related articles for " ++ company_name
          ++ ". Dominant theme: "
          ++ (match key_themes with | [] => "None" | t :: _ => t.theme)
          ++ ". Sentiment: " ++ sentiment ++ "."
        key_themes := key_themes
        sentiment := sentiment
        risk_indicators := risk_indicators
        total_articles := some articles.length
        controversy_count := some (controversy_articles articles).length }

end NewsAnalysisAgent

/-- Zero-pad a digit string on the left to width `w`. -/
def padZeros (s : String) (w : Nat) : String :=
  (List.replicate (w - s.length) '0').asString ++ s

/-- Model of Python `format(q, "." ++ prec ++ "%")` on a rational `q`:
multiply by 100, keep `prec` decimal digits (rounding half up), append a
percent sign.  (Binary-float rounding minutiae are not modelled; no
theorem below depends on the digits of this string.) -/
def formatPercent (q : ℚ) (prec : Nat) : String :=
  let scaled : ℤ :=
    (2 * (q.num * ((10 : ℤ) ^ (prec + 2))) + (q.den : ℤ)) / (2 * (q.den : ℤ))
  let sign := if scaled < 0 then "-" else ""
  let n := scaled.natAbs
  let base := 10 ^ prec
  sign ++ toString (n / base)
    ++ (if prec = 0 then "" else "." ++ padZeros (toString (n % base)) prec)
    ++ "%"

/-- One entry of the feature-importance list of
`ModelInterpretabilityAgent._analyze_features`. -/
structure Feature where
  feature : String
  value : ℚ
  impact : String
  deriving DecidableEq

/-- Outcome of the scaler transform, torch forward pass and softmax inside
`_run_inference` (lines 184-199): either an exception (caught at line 202)
or the softmax probability vector.  The network, scaler and checkpoint are
external binary artifacts, so the vector is an environment input. -/
inductive InferOutcome where
  | raises
  | probs (ps : List ℚ)
  deriving DecidableEq

/-- The state `ModelInterpretabilityAgent` holds after `_load_model`:
whether model+scaler+feature columns are all available (the line 155
truthiness test), the inverse label mapping from the checkpoint, the
checkpoint's test accuracy (`none` = no metadata), and the inference
outcome for the run under consideration. -/
structure ModelEnv where
  hasModel : Bool
  label_mapping_inv : List (Nat × String)
  test_accuracy : Option ℚ
  infer : InferOutcome
  deriving DecidableEq

/-- Index of the (first) maximum of the probability vector:
`torch.argmax(probabilities, dim=1).item()`. -/
def argmaxIdx : List ℚ → Nat
  | [] => 0
  | [_] => 0
  | p :: q :: rest =>
    let j := argmaxIdx (q :: rest)
    if p < (q :: rest).getD j 0 then j + 1 else 0

/-- The caller-supplied `model_prediction` dict (keys may be absent). -/
structure Prediction where
  predicted_class : Option String
  confidence : Option ℚ
  deriving DecidableEq

/-- The dict returned by `ModelInterpretabilityAgent.process`: the
`confidence` value is the percent-formatted string the source builds at
line 175. -/
structure ModelResult where
  agent : String
  risk_level : String
  confidence : String
  probabilities : Option (List (String × String))
  explanation : String
  key_factors : List Feature
  model_accuracy : String
  deriving DecidableEq

namespace ModelInterpretabilityAgent

/-- `_run_inference` (lines 183-204): argmax class, its probability as the
confidence, label looked up in `label_mapping_inv` with default
`"Unknown"`; any exception is caught and yields
`("Unknown", 0.0, None)`. -/
def run_inference (menv : ModelEnv) : String × ℚ × Option (List ℚ) :=
  match menv.infer with
  | .raises => ("Unknown", 0, none)
  | .probs ps =>
    let predicted_class := argmaxIdx ps
    let confidence := ps.getD predicted_class 0
    ((menv.label_mapping_inv.lookup predicted_class).getD "Unknown",
      confidence, some ps)

/-- The `(risk_level, confidence, probabilities)` triple selected at the
top of `process` (lines 152-161): inference when the model is available,
otherwise the caller-supplied prediction with defaults
(`"Unknown"`, `0.0`, no distribution). -/
def interpretationSignal (menv : ModelEnv) (prediction : Prediction) :
    String × ℚ × Option (List ℚ) :=
  if menv.hasModel then run_inference menv
  else (prediction.predicted_class.getD "Unknown",
        prediction.confidence.getD 0, none)

/-- `_analyze_features` (lines 206-231): one fixed-threshold entry per
present display-cased key, in the source's order. -/
def analyze_features (company_data : List (String × ℚ)) : List Feature :=
  (match company_data.lookup "Total ESG Risk score" with
    | some score =>
      [{ feature := "Total ESG Risk", value := score,
         impact := if 30 < score then "High"
                   else if 20 < score then "Medium" else "Low" }]
    | none => [])
  ++ (match company_data.lookup "Environment Risk Score" with
    | some v =>
      [{ feature := "Environmental Risk", value := v,
         impact := if 10 < v then "High" else "Medium" }]
    | none => [])
  ++ (match company_data.lookup "Controversy Score" with
    | some v =>
      [{ feature := "Controversy Level", value := v,
         impact := if 3 < v then "High" else "Low" }]
    | none => [])

/-- `_generate_explanation` (lines 233-245): base sentence, optional
primary-factor sentence (only when the feature list is non-empty), and a
confidence-banded qualifier. -/
def generate_explanation (risk_level : String) (confidence : ℚ)
    (features : List Feature) (company : String) : String :=
  let base := "The model predicts " ++ company ++ " has \x27" ++ risk_level
    ++ "\x27 ESG risk with " ++ formatPercent confidence 1 ++ " confidence. "
  let factorPart :=
    match features with
    | [] => ""
    | top :: _ =>
      "Primary factor: " ++ top.feature ++ " (" ++ top.impact ++ " impact). "
  let confPart :=
    if mkRat 4 5 < confidence then
      "High confidence in this prediction based on historical patterns."
    else if confidence < mkRat 3 5 then
      "Lower confidence suggests borderline classification or limited data."
    else ""
  base ++ factorPart ++ confPart

/-- NumPy truthiness of `probabilities` in the line 176 expression
`{...} if probabilities else None`: `None` and the empty array are falsy,
a one-element array has its element's truthiness, and a multi-element
array raises `ValueError` (ambiguous truth value). -/
def truthyProbs : Option (List ℚ) → Except String Bool
  | none => Except.ok false
  | some [] => Except.ok false
  | some [p] => Except.ok (decide (p ≠ 0))
  | some (_ :: _ :: _) =>
    Except.error "ValueError: ambiguous array truth value"

/-- The label→percent table of the line 176 dict comprehension. -/
def probTable (menv : ModelEnv) (ps : List ℚ) : List (String × String) :=
  (List.range ps.length).map fun i =>
    ((menv.label_mapping_inv.lookup i).getD ("Class_" ++ toString i),
      formatPercent (ps.getD i 0) 2)

/-- `ModelInterpretabilityAgent.process` (lines 152-181).  The only raise
point is the NumPy truthiness test on the probability vector while the
return dict is built. -/
def process (menv : ModelEnv) (company_name : String)
    (company_data : List (String × ℚ)) (prediction : Prediction) :
    Except String ModelResult := do
  let sig := interpretationSignal menv prediction
  let risk_level := sig.1
  let confidence := sig.2.1
  let fi := analyze_features company_data
  let explanation := generate_explanation risk_level confidence fi company_name
  let truthy ← truthyProbs sig.2.2
  Except.ok
    { agent := "Model Explainer"
      risk_level := risk_level
      confidence := formatPercent confidence 2
      probabilities :=
        if truthy then some (probTable menv (sig.2.2.getD [])) else none
      explanation := explanation
      key_factors := fi.take 5
      model_accuracy :=
        match menv.test_accuracy with
        | some a => formatPercent a 2
        | none => "N/A" }

end ModelInterpretabilityAgent

/-- The dict returned by `DiscussionOrchestrator.process`: the Groq path
sets `powered_by` and no `note`; the rule-based path sets `note` and no
`powered_by`. -/
structure SynthResult where
  agent : String
  synthesis : String
  news_model_alignment : String
  recommendations : List String
  overall_risk_assessment : String
  powered_by : Option String
  note : Option String
  deriving DecidableEq

/-- One entry of the pipeline's shared `conversation_history`: the news
dict, the model dict, or a synthesis dict. -/
inductive HistoryEntry where
  | news (r : NewsResult)
  | model (r : ModelResult)
  | synth (r : SynthResult)
  deriving DecidableEq

/-- `d.get("sentiment")` on a history entry (only news dicts carry it). -/
def hSentiment : Option HistoryEntry → Option String
  | some (.news r) => some r.sentiment
  | _ => none

/-- `d.get("risk_level")` on a history entry (only model dicts carry it). -/
def hRiskLevel : Option HistoryEntry → Option String
  | some (.model r) => some r.risk_level
  | _ => none

/-- `d.get("risk_indicators")` on a history entry. -/
def hRiskIndicators : Option HistoryEntry → Option (List String)
  | some (.news r) => some r.risk_indicators
  | _ => none

/-- `d.get("confidence")` on a history entry: the model dict's value is the
percent-formatted string. -/
def hConfidenceStr : Option HistoryEntry → Option String
  | some (.model r) => some r.confidence
  | _ => none

/-- `d.get("summary")` on a history entry. -/
def hSummary : Option HistoryEntry → Option String
  | some (.news r) => some r.summary
  | _ => none

/-- `d.get("total_articles")` on a history entry: absent both when the
entry is not a news dict and when the news dict omitted the key. -/
def hTotalArticles : Option HistoryEntry → Option Nat
  | some (.news r) => r.total_articles
  | _ => none

/-- `d.get("key_themes")` on a history entry. -/
def hKeyThemes : Option HistoryEntry → Option (List Theme)
  | some (.news r) => some r.key_themes
  | _ => none

/-- Outcome of the Groq chat-completions HTTP call. -/
inductive GroqOutcome where
  | http200 (text : String)
  | httpError (code : Nat)
  | exn
  deriving DecidableEq

/-- The Groq collaborator environment: whether `is_available()` holds
(`GROQ_API_KEY` configured) and what the HTTP call would do. -/
structure GroqEnv where
  available : Bool
  outcome : GroqOutcome
  deriving DecidableEq

/-- A Python value sitting in the `confidence` slot of a prediction dict:
the orchestrator passes the model stage's formatted percent string (or the
literal default string `"0%"`); other callers could pass a number. -/
inductive ConfVal where
  | num (q : ℚ)
  | str (s : String)
  deriving DecidableEq

/-- Python `format(v, ".2%")`: numbers format; a string raises
`ValueError` (unknown format code for objects of type str). -/
def pyFormatPercent2 : ConfVal → Except String String
  | .num q => Except.ok (formatPercent q 2)
  | .str _ => Except.error "ValueError: unknown format code for str"

/-- Python `format(v, ".1%")`, same failure mode. -/
def pyFormatPercent1 : ConfVal → Except String String
  | .num q => Except.ok (formatPercent q 1)
  | .str _ => Except.error "ValueError: unknown format code for str"

/-- The dict returned by `GroqService.synthesize_agent_discussion`: the
success dict carries `model` and no `note`, the fallback dict carries
`note` and no `model`. -/
structure GroqResult where
  company : String
  synthesis : Option String
  news_summary : Option String
  predicted_risk : Option String
  confidence : Option ConfVal
  model : Option String
  note : Option String
  deriving DecidableEq

namespace GroqService

/-- `GroqService._fallback_synthesis` (groq_service.py lines 255-281):
formats the confidence with `".1%"` into the template (raising on a string
confidence) and flags fallback mode with a `note`. -/
def fallback_synthesis (news_summary : Option String)
    (risk_level : Option String) (confidence : Option ConfVal)
    (company_name : String) : Except String GroqResult := do
  let rl := risk_level.getD "Unknown"
  let conf := confidence.getD (.num 0)
  let confStr ← pyFormatPercent1 conf
  Except.ok
    { company := company_name
      synthesis := some ("\n**" ++ company_name ++ " ESG Risk Assessment**\n\n"
        ++ "Model Prediction: " ++ rl ++ " risk (confidence: " ++ confStr
        ++ ")\n\n"
        ++ "News Insights: " ++ news_summary.getD "No recent news available"
        ++ "\n\n"
        ++ "Recommendation: "
        ++ (if rl == "High" then "Monitor closely due to elevated risk"
            else "Continue regular monitoring") ++ "\n")
      news_summary := news_summary
      predicted_risk := some rl
      confidence := some conf
      model := none
      note := some "Using fallback synthesis (Groq API not configured)" }

/-- `GroqService.synthesize_agent_discussion` (lines 151-253).  When
available, the prompt context is built *before* the `try` block and
formats the confidence with `".2%"`: a string confidence raises there and
the exception escapes.  A non-200 response or an exception from the HTTP
call falls back to `_fallback_synthesis`. -/
def synthesize_agent_discussion (genv : GroqEnv)
    (news_summary : Option String) (risk_level : Option String)
    (confidence : Option ConfVal) (company_name : String) :
    Except String GroqResult := do
  if !genv.available then
    fallback_synthesis news_summary risk_level confidence company_name
  else
    let _ ← pyFormatPercent2 (confidence.getD (.num 0))
    match genv.outcome with
    | .http200 text =>
      Except.ok
        { company := company_name
          synthesis := some text
          news_summary := news_summary
          predicted_risk := risk_level
          confidence := confidence
          model := some "llama-3.3-70b-versatile"
          note := none }
    | .httpError _ =>
      fallback_synthesis news_summary risk_level confidence company_name
    | .exn =>
      fallback_synthesis news_summary risk_level confidence company_name

end GroqService

/-- `DiscussionOrchestrator._check_alignment`'s risk→sentiment map
(agent_service.py lines 349-353). -/
def risk_sentiment_map : List (String × String) :=
  [("Low", "positive"), ("Medium", "mixed"), ("High", "negative")]

/-- `risk_sentiment_map.get(model_risk, "neutral")` (line 355). -/
def expected_sentiment (model_risk : String) : String :=
  (risk_sentiment_map.lookup model_risk).getD "neutral"

/-- `DiscussionOrchestrator._check_alignment` (lines 348-362). -/
def check_alignment (news_sentiment model_risk : String) : String :=
  if news_sentiment == expected_sentiment model_risk then "Strong alignment"
  else if news_sentiment == "mixed" then "Partial alignment"
  else "Divergent signals"

/-- `DiscussionOrchestrator._generate_recommendations` (lines 364-381). -/
def generate_recommendations (sentiment risk : String)
    (indicators : List String) (alignment : String) : List String :=
  let recs : List String :=
    (if risk == "High" || sentiment == "negative" then
      ["Conduct detailed due diligence on recent controversies",
       "Monitor regulatory compliance status"] else [])
    ++ (if alignment == "Divergent signals" then
      ["Investigate discrepancy between news sentiment and model prediction",
       "Review recent events not captured in training data"] else [])
    ++ (if !indicators.isEmpty then
      ["Address " ++ toString indicators.length
        ++ " identified risk indicators immediately"] else [])
  if recs.isEmpty then
    ["Maintain current ESG monitoring practices",
     "Continue tracking sustainability metrics quarterly"]
  else recs

/-- `DiscussionOrchestrator._assess_overall_risk` (lines 397-405). -/
def assess_overall_risk (sentiment model_risk alignment : String) : String :=
  if sentiment == "negative" && model_risk == "High" then
    "Critical: High risk confirmed by both model and news"
  else if sentiment == "negative" || model_risk == "High" then
    "Elevated: Significant risk indicators present"
  else if alignment == "Divergent signals" then
    "Uncertain: Mixed signals require further investigation"
  else
    "Moderate: Standard monitoring recommended"

/-- `DiscussionOrchestrator._synthesize_insights` (lines 383-395). -/
def synthesize_insights (company : String)
    (news modelEntry : Option HistoryEntry) (alignment : String) : String :=
  let base := "**" ++ company ++ " ESG Analysis Summary:**\n\n"
    ++ "Model Assessment: " ++ (hRiskLevel modelEntry).getD "N/A" ++ " risk ("
    ++ (hConfidenceStr modelEntry).getD "N/A" ++ " confidence)\n"
    ++ "News Sentiment: " ++ (hSentiment news).getD "N/A" ++ " based on "
    ++ toString ((hTotalArticles news).getD 0) ++ " articles\n"
    ++ "News-Model Alignment: " ++ alignment ++ "\n\n"
  let themes := (hKeyThemes news).getD []
  if themes.isEmpty then base
  else base ++ "Key ESG Themes:\n"
    ++ String.join ((themes.take 3).map fun t =>
        "- " ++ t.theme ++ ": " ++ toString t.count ++ " mentions\n")

namespace DiscussionOrchestrator

/-- `DiscussionOrchestrator.process` (lines 254-346) together with its two
branches `_groq_synthesis` and `_fallback_synthesis`: reads the prior
stage dicts positionally from the history (`[-2]`, `[-1]`, empty dict when
too short), computes the alignment, and either asks Groq (passing the
model stage's *string* confidence into the prompt, which raises during
formatting) or builds the rule-based fallback result. -/
def process (genv : GroqEnv) (company_name : String)
    (history : List HistoryEntry) : Except String SynthResult := do
  let news_analysis : Option HistoryEntry :=
    if 2 ≤ history.length then history.get? (history.length - 2) else none
  let model_analysis : Option HistoryEntry := history.getLast?
  let news_sentiment := (hSentiment news_analysis).getD "neutral"
  let model_risk := (hRiskLevel model_analysis).getD "Unknown"
  let alignment := check_alignment news_sentiment model_risk
  if genv.available then
    let conf : ConfVal := .str ((hConfidenceStr model_analysis).getD "0%")
    let groq_result ← GroqService.synthesize_agent_discussion genv
      (hSummary news_analysis) (some model_risk) (some conf) company_name
    let recommendations := generate_recommendations news_sentiment model_risk
      ((hRiskIndicators news_analysis).getD []) alignment
    Except.ok
      { agent := "ESG Insight Orchestrator"
        synthesis := groq_result.synthesis.getD ""
        news_model_alignment := alignment
        recommendations := recommendations
        overall_risk_assessment :=
          assess_overall_risk news_sentiment model_risk alignment
        powered_by := some "Groq LLM (llama-3.1-70b)"
        note := none }
  else
    let risk_indicators := (hRiskIndicators news_analysis).getD []
    let recommendations := generate_recommendations news_sentiment model_risk
      risk_indicators alignment
    let synthesis :=
      synthesize_insights company_name news_analysis model_analysis alignment
    Except.ok
      { agent := "ESG Insight Orchestrator"
        synthesis := synthesis
        news_model_alignment := alignment
        recommendations := recommendations
        overall_risk_assessment :=
          assess_overall_risk news_sentiment model_risk alignment
        powered_by := none
        note := some "Using rule-based synthesis (Groq API not configured)" }

end DiscussionOrchestrator

/-- The `agents` object of the final report. -/
structure AgentsView where
  news_analysis : NewsResult
  model_interpretation : ModelResult
  synthesis : SynthResult
  deriving DecidableEq

/-- `AgentPipeline.run`'s return dict (lines 437-445).  The wall-clock
`timestamp` field is I/O and carries no information about the pipeline, so
it is not modelled. -/
structure FinalReport where
  company : String
  agents : AgentsView
  conversation_log : List HistoryEntry
  deriving DecidableEq

namespace AgentPipeline

/-- `AgentPipeline.run` (lines 413-445): news stage, append; model stage,
append; synthesis stage; return the report.  The synthesis result is
returned under `agents.synthesis` but never appended to
`conversation_history`. -/
def run (menv : ModelEnv) (genv : GroqEnv) (company_name : String)
    (company_data : List (String × ℚ)) (news_articles : List Article)
    (model_prediction : Prediction) : Except String FinalReport := do
  let news_result ← NewsAnalysisAgent.process company_name news_articles
  let history1 : List HistoryEntry := [] ++ [HistoryEntry.news news_result]
  let model_result ← ModelInterpretabilityAgent.process menv company_name
    company_data model_prediction
  let history2 := history1 ++ [HistoryEntry.model model_result]
  let final_result ← DiscussionOrchestrator.process genv company_name history2
  Except.ok
    { company := company_name
      agents :=
        { news_analysis := news_result
          model_interpretation := model_result
          synthesis := final_result }
      conversation_log := history2 }

end AgentPipeline

/-- The error payload of an `Except` result, when present (used to state
that a call raises a particular Python exception). -/
def errorOf {α : Type} : Except String α → Option String
  | .error e => some e
  | .ok _ => none

/-! ## Theorems -/

/-- Successful bind in the `Except` monad decomposes into two successes. -/
theorem bind_eq_ok {α β : Type} (m : Except String α)
    (f : α → Except String β) (r : β) (h : m >>= f = Except.ok r) :
    ∃ a, m = Except.ok a ∧ f a = Except.ok r := by
  cases m with
  | error e => exact Except.noConfusion (show Except.error e = Except.ok r from h)
  | ok a => exact ⟨a, rfl, h⟩

/-- Failing bind in the `Except` monad: either the first action failed or
it succeeded and the continuation failed. -/
theorem bind_eq_error {α β : Type} (m : Except String α)
    (f : α → Except String β) (e : String) (h : m >>= f = Except.error e) :
    m = Except.error e ∨ ∃ a, m = Except.ok a ∧ f a = Except.error e := by
  cases m with
  | error e2 =>
    exact Or.inl (congrArg Except.error (Except.error.inj
      (show (Except.error e2 : Except String β) = Except.error e from h)))
  | ok a => exact Or.inr ⟨a, rfl, h⟩

/-- Recover the `Except`-level equation from its `toOption` shadow. -/
theorem eq_ok_of_toOption {α : Type} (m : Except String α) (r : α)
    (h : m.toOption = some r) : m = Except.ok r := by
  cases m with
  | error e => exact Option.noConfusion h
  | ok a => rw [Option.some.inj (show some a = some r from h)]

/-- Case analysis of `check_alignment` against the expected sentiment. -/
theorem check_alignment_cases (s r : String) :
    (check_alignment s r = "Strong alignment" ↔ s = expected_sentiment r) ∧
    (check_alignment s r = "Partial alignment" ↔
      (s ≠ expected_sentiment r ∧ s = "mixed")) ∧
    (check_alignment s r = "Divergent signals" ↔
      (s ≠ expected_sentiment r ∧ s ≠ "mixed")) := by
  unfold check_alignment
  by_cases h1 : s = expected_sentiment r <;> by_cases h2 : s = "mixed" <;>
    simp_all

/-- C3 For every news sentiment `s` and model risk level `r` (with its
expected sentiment under the Low→positive, Medium→mixed, High→negative
map), the alignment is "Strong alignment" iff `s` equals the expected
sentiment, "Partial alignment" iff `s` is exactly "mixed" and not already
a Strong match, and "Divergent signals" otherwise. -/
theorem check_alignment_matrix (s r expected : String)
    (h : (r, expected) ∈ risk_sentiment_map) :
    (check_alignment s r = "Strong alignment" ↔ s = expected) ∧
    (check_alignment s r = "Partial alignment" ↔ (s ≠ expected ∧ s = "mixed")) ∧
    (check_alignment s r = "Divergent signals" ↔ (s ≠ expected ∧ s ≠ "mixed")) := by
  simp only [risk_sentiment_map, List.mem_cons, List.not_mem_nil, or_false,
    Prod.mk.injEq] at h
  have base := check_alignment_cases s r
  rcases h with ⟨rfl, rfl⟩ | ⟨rfl, rfl⟩ | ⟨rfl, rfl⟩ <;>
    simpa only [show expected_sentiment "Low" = "positive" from rfl,
      show expected_sentiment "Medium" = "mixed" from rfl,
      show expected_sentiment "High" = "negative" from rfl] using base

/-- C3 witness: at sentiment "mixed" and risk "Medium" the expected
sentiment is "mixed" and the alignment is a Strong match. -/
theorem check_alignment_matrix_witness :
    ("Medium", "mixed") ∈ risk_sentiment_map ∧
    (check_alignment "mixed" "Medium" = "Strong alignment" ↔
      "mixed" = "mixed") := by
  refine ⟨by decide, ?_⟩
  exact (check_alignment_matrix "mixed" "Medium" "mixed" (by decide)).1

/-- C4 For every sentiment, risk level and alignment, the overall risk
assessment is the "Critical..." string iff sentiment="negative" and
risk="High" (regardless of alignment); otherwise the "Elevated..." string
iff sentiment="negative" or risk="High"; otherwise the "Uncertain..."
string iff alignment="Divergent signals"; otherwise the "Moderate..."
string — exactly one of the four fixed strings by that priority ladder. -/
theorem assess_overall_risk_ladder (s r a : String) :
    (assess_overall_risk s r a =
        "Critical: High risk confirmed by both model and news"
      ↔ (s = "negative" ∧ r = "High")) ∧
    (assess_overall_risk s r a =
        "Elevated: Significant risk indicators present"
      ↔ (¬(s = "negative" ∧ r = "High") ∧ (s = "negative" ∨ r = "High"))) ∧
    (assess_overall_risk s r a =
        "Uncertain: Mixed signals require further investigation"
      ↔ (¬(s = "negative" ∨ r = "High") ∧ a = "Divergent signals")) ∧
    (assess_overall_risk s r a =
        "Moderate: Standard monitoring recommended"
      ↔ (¬(s = "negative" ∨ r = "High") ∧ a ≠ "Divergent signals")) := by
  by_cases hs : s = "negative" <;> by_cases hr : r = "High" <;>
    by_cases ha : a = "Divergent signals" <;>
      simp_all [assess_overall_risk]

/-- C5 counterexample: on the empty article list the news stage returns a
result whose `total_articles` and `controversy_count` keys are absent
(`none`), not present with value `0` as the claim states. -/
theorem newsAnalysis_empty_omits_counts :
    (NewsAnalysisAgent.process "TestCo" []).toOption.map
        (fun r => (r.total_articles, r.controversy_count)) =
      some (none, none) ∧
    (NewsAnalysisAgent.process "TestCo" []).toOption.map
        (fun r => (r.total_articles, r.controversy_count)) ≠
      some (some 0, some 0) := by
  exact ⟨rfl, by decide⟩

/-- C5 (amended) For the empty news-article list, the news stage returns
sentiment "neutral", empty themes and risk indicators, the canned
"no news available" summary, and *omits* the `total_articles` and
`controversy_count` keys (callers reading them with a `0` default observe
zero); this is a defined edge case, not an error. -/
theorem newsAnalysis_empty_input (company : String) :
    NewsAnalysisAgent.process company [] = Except.ok
      { agent := "ESG News Analyst"
        summary := "No recent news available for analysis."
        key_themes := []
        sentiment := "neutral"
        risk_indicators := []
        total_articles := none
        controversy_count := none } := rfl

/-- C6 counterexample: an article whose description matches a controversy
keyword but whose `title` key is absent makes the news stage raise a
`KeyError` while building the risk indicators — it does not default the
missing field. -/
theorem newsAnalysis_missing_title_raises :
    errorOf (NewsAnalysisAgent.process "TestCo"
        [{ title := none, description := some "lawsuit filed" }]) =
      some "KeyError: \x27title\x27" := by decide

/-- C9 counterexample: two single-article inputs with identical
descriptions and different titles (one title containing the controversy
keyword "scandal") produce different `risk_indicators`, so fields other
than the description do affect the stage output. -/
theorem newsAnalysis_title_affects_output :
    (NewsAnalysisAgent.process "C"
        [{ title := some "scandal hits firm", description := some "lawsuit" }]).toOption.map
        (fun r => r.risk_indicators) =
      some ["Controversy detected: scandal hits firm"] ∧
    (NewsAnalysisAgent.process "C"
        [{ title := some "routine update", description := some "lawsuit" }]).toOption.map
        (fun r => r.risk_indicators) =
      some ["Controversy detected: routine update"] ∧
    (["Controversy detected: scandal hits firm"] : List String) ≠
      ["Controversy detected: routine update"] := by
  refine ⟨by decide, by decide, by decide⟩

/-- Mapping `getTitle` over a list of articles that all carry a title never
raises. -/
theorem mapM_getTitle_ok (l : List Article) (h : ∀ a ∈ l, a.title.isSome) :
    ∃ ts, l.mapM getTitle = Except.ok ts := by
  induction l with
  | nil => exact ⟨[], rfl⟩
  | cons a t ih =>
    obtain ⟨ts, hts⟩ := ih fun x hx => h x (List.mem_cons_of_mem a hx)
    have ha := h a (List.mem_cons_self a t)
    obtain ⟨v, hv⟩ := Option.isSome_iff_exists.mp ha
    refine ⟨v :: ts, ?_⟩
    have hv2 : getTitle a = Except.ok v := by rw [getTitle, hv]
    rw [List.mapM_cons, hv2, hts]
    rfl

/-- Mapping `getTitle` raises on the head of the computation exactly when
some article misses its title; here only the success shape is needed:
an `Except.ok` result of `process` on a non-empty list pins the sentiment
field to `sentimentOf`. -/
theorem process_ok_sentiment (company : String) (arts : List Article)
    (r : NewsResult) (hne : arts ≠ [])
    (h : NewsAnalysisAgent.process company arts = Except.ok r) :
    r.sentiment = sentimentOf arts := by
  unfold NewsAnalysisAgent.process at h
  rw [if_neg (by simpa [List.isEmpty_iff] using hne)] at h
  obtain ⟨t1, h1, h⟩ := bind_eq_ok _ _ _ h
  obtain ⟨t2, h2, h⟩ := bind_eq_ok _ _ _ h
  obtain ⟨t3, h3, h⟩ := bind_eq_ok _ _ _ h
  obtain ⟨t4, h4, h⟩ := bind_eq_ok _ _ _ h
  have hr := Except.ok.inj h
  rw [← hr]

/-- C2 For every non-empty news-article list on which the stage returns
normally, the sentiment is "positive" when exactly zero articles match a
controversy keyword, "negative" when strictly more than 2 match, and
"mixed" otherwise (1 or 2 matches). -/
theorem newsAnalysis_sentiment_policy (company : String) (arts : List Article)
    (r : NewsResult) (hne : arts ≠ [])
    (h : NewsAnalysisAgent.process company arts = Except.ok r) :
    ((controversy_articles arts).length = 0 → r.sentiment = "positive") ∧
    (2 < (controversy_articles arts).length → r.sentiment = "negative") ∧
    (1 ≤ (controversy_articles arts).length →
      (controversy_articles arts).length ≤ 2 → r.sentiment = "mixed") := by
  rw [process_ok_sentiment company arts r hne h]
  unfold sentimentOf
  refine ⟨fun h0 => ?_, fun h2 => ?_, fun hlo hhi => ?_⟩
  · rw [if_pos (by simp only [List.isEmpty_iff_length_eq_zero]; omega)]
  · rw [if_neg (by simp only [List.isEmpty_iff_length_eq_zero]; omega),
      if_pos h2]
  · rw [if_neg (by simp only [List.isEmpty_iff_length_eq_zero]; omega),
      if_neg (by omega)]

/-- C2 witness: one article matching "lawsuit" gives sentiment "mixed". -/
theorem newsAnalysis_sentiment_policy_witness :
    ∃ r, NewsAnalysisAgent.process "W"
        [{ title := some "T", description := some "lawsuit filed" }] =
      Except.ok r ∧ r.sentiment = "mixed" := by
  have h := eq_ok_of_toOption
    (NewsAnalysisAgent.process "W"
      [{ title := some "T", description := some "lawsuit filed" }])
    { agent := "ESG News Analyst"
      summary := "Analyzed 1 ESG-related articles for W. Dominant theme: None. Sentiment: mixed."
      key_themes := []
      sentiment := "mixed"
      risk_indicators := ["Controversy detected: T"]
      total_articles := some 1
      controversy_count := some 1 }
    (by decide)
  exact ⟨_, h, (newsAnalysis_sentiment_policy "W"
    [{ title := some "T", description := some "lawsuit filed" }] _
    (by decide) h).2.2 (by decide) (by decide)⟩

/-- C6 (amended) The news stage never raises for a missing or null
description (it is treated as the empty string), and never raises at all
when every article carries a `title` key; but an article missing its
`title` that matches a theme or controversy keyword raises a `KeyError`
(see the counterexample). -/
theorem newsAnalysis_no_raise_with_titles (company : String)
    (arts : List Article) (h : ∀ a ∈ arts, a.title.isSome) :
    (∃ r, NewsAnalysisAgent.process company arts = Except.ok r) ∧
    (∀ a : Article, a.description = none → descLower a = "") := by
  constructor
  · have hmem : ∀ (kws : List String) (n : Nat),
        ∀ a ∈ (arts.filter (matchesAny kws)).take n, a.title.isSome :=
      fun _ _ a ha => h a (List.mem_of_mem_filter (List.mem_of_mem_take ha))
    obtain ⟨t1, h1⟩ := mapM_getTitle_ok ((env_articles arts).take 2)
      (hmem environmental_keywords 2)
    obtain ⟨t2, h2⟩ := mapM_getTitle_ok ((social_articles arts).take 2)
      (hmem social_keywords 2)
    obtain ⟨t3, h3⟩ := mapM_getTitle_ok ((gov_articles arts).take 2)
      (hmem governance_keywords 2)
    obtain ⟨t4, h4⟩ := mapM_getTitle_ok ((controversy_articles arts).take 3)
      (hmem controversy_keywords 3)
    cases hp : NewsAnalysisAgent.process company arts with
    | ok r => exact ⟨r, rfl⟩
    | error e =>
      exfalso
      unfold NewsAnalysisAgent.process at hp
      by_cases he : arts.isEmpty
      · rw [if_pos he] at hp
        exact Except.noConfusion hp
      · rw [if_neg he] at hp
        rcases bind_eq_error _ _ _ hp with herr | ⟨a1, _, hp⟩
        · rw [h1] at herr; exact Except.noConfusion herr
        rcases bind_eq_error _ _ _ hp with herr | ⟨a2, _, hp⟩
        · rw [h2] at herr; exact Except.noConfusion herr
        rcases bind_eq_error _ _ _ hp with herr | ⟨a3, _, hp⟩
        · rw [h3] at herr; exact Except.noConfusion herr
        rcases bind_eq_error _ _ _ hp with herr | ⟨a4, _, hp⟩
        · rw [h4] at herr; exact Except.noConfusion herr
        · exact Except.noConfusion hp
  · intro a ha
    cases a with
    | mk t d => cases ha; rfl

/-- C6 (amended) witness: a titled article matching a controversy keyword
is processed without raising. -/
theorem newsAnalysis_no_raise_with_titles_witness :
    (∀ a ∈ [({ title := some "T", description := some "lawsuit filed" } :
        Article)], a.title.isSome) ∧
    (∃ r, NewsAnalysisAgent.process "W"
        [{ title := some "T", description := some "lawsuit filed" }] =
      Except.ok r) := by
  refine ⟨by decide, ?_⟩
  exact (newsAnalysis_no_raise_with_titles "W"
    [{ title := some "T", description := some "lawsuit filed" }]
    (by decide)).1

/-- Keyword matching only reads the description field. -/
theorem matchesAny_congr (kws : List String) {a b : Article}
    (h : a.description = b.description) :
    matchesAny kws a = matchesAny kws b := by
  unfold matchesAny descLower
  rw [h]

/-- Lists that agree on descriptions produce keyword-filter lists of equal
length. -/
theorem filter_matchesAny_length (kws : List String) :
    ∀ (l1 l2 : List Article),
      l1.map Article.description = l2.map Article.description →
      (l1.filter (matchesAny kws)).length =
        (l2.filter (matchesAny kws)).length := by
  intro l1
  induction l1 with
  | nil =>
    intro l2 h
    cases l2 with
    | nil => rfl
    | cons b t => simp at h
  | cons a t ih =>
    intro l2 h
    cases l2 with
    | nil => simp at h
    | cons b t2 =>
      simp only [List.map_cons, List.cons.injEq] at h
      obtain ⟨hd, ht⟩ := h
      simp only [List.filter_cons]
      rw [matchesAny_congr kws hd]
      cases hb : matchesAny kws b <;> simp [ih t2 ht]

/-- C9 (amended) The theme/controversy classification — sentiment,
controversy count and the per-theme match counts — depends only on the
lower-cased descriptions: two article lists with pointwise-equal
descriptions classify identically.  (Titles do still appear verbatim
inside theme examples and risk-indicator strings, which is what the
counterexample exhibits.) -/
theorem newsAnalysis_classification_by_description (arts1 arts2 : List Article)
    (h : arts1.map Article.description = arts2.map Article.description) :
    sentimentOf arts1 = sentimentOf arts2 ∧
    (controversy_articles arts1).length = (controversy_articles arts2).length ∧
    (env_articles arts1).length = (env_articles arts2).length ∧
    (social_articles arts1).length = (social_articles arts2).length ∧
    (gov_articles arts1).length = (gov_articles arts2).length := by
  have hc := filter_matchesAny_length controversy_keywords arts1 arts2 h
  refine ⟨?_, hc, filter_matchesAny_length environmental_keywords arts1 arts2 h,
    filter_matchesAny_length social_keywords arts1 arts2 h,
    filter_matchesAny_length governance_keywords arts1 arts2 h⟩
  unfold sentimentOf controversy_articles
  unfold controversy_articles at hc
  simp only [List.isEmpty_iff_length_eq_zero]
  rw [hc]

/-- C9 (amended) witness: two lists with the same descriptions but
different titles classify identically. -/
theorem newsAnalysis_classification_by_description_witness :
    ([({ title := some "A", description := some "lawsuit" } : Article)].map
        Article.description =
      [({ title := some "B", description := some "lawsuit" } : Article)].map
        Article.description) ∧
    sentimentOf [{ title := some "A", description := some "lawsuit" }] =
      sentimentOf [{ title := some "B", description := some "lawsuit" }] := by
  refine ⟨by decide, ?_⟩
  exact (newsAnalysis_classification_by_description
    [{ title := some "A", description := some "lawsuit" }]
    [{ title := some "B", description := some "lawsuit" }] (by decide)).1

/-- C10 The feature-importance list is built solely from the three
display-cased keys, so it has at most 3 entries, every entry's impact is
one of High/Medium/Low, and for company data without those keys (e.g.
snake_case-only keys) the list — and hence `key_factors`, its 5-prefix —
is empty and the generated explanation carries no "Primary factor"
sentence (no occurrence of that text, provided the interpolated company
name, risk label and formatted confidence do not themselves contain the
letter P, which the witness checks concretely). -/
theorem analyze_features_explanation_spec (cd : List (String × ℚ))
    (risk : String) (conf : ℚ) (company : String) :
    (ModelInterpretabilityAgent.analyze_features cd).length ≤ 3 ∧
    (∀ f ∈ ModelInterpretabilityAgent.analyze_features cd,
      f.impact = "High" ∨ f.impact = "Medium" ∨ f.impact = "Low") ∧
    (cd.lookup "Total ESG Risk score" = none →
     cd.lookup "Environment Risk Score" = none →
     cd.lookup "Controversy Score" = none →
      ModelInterpretabilityAgent.analyze_features cd = [] ∧
      (ModelInterpretabilityAgent.analyze_features cd).take 5 = [] ∧
      (('P' : Char) ∉ company.data → ('P' : Char) ∉ risk.data →
       ('P' : Char) ∉ (formatPercent conf 1).data →
        ¬ ("Primary factor").data <:+:
          (ModelInterpretabilityAgent.generate_explanation risk conf
            (ModelInterpretabilityAgent.analyze_features cd) company).data)) := by
  refine ⟨?_, ?_, fun hT hE hC => ?_⟩
  · unfold ModelInterpretabilityAgent.analyze_features
    cases cd.lookup "Total ESG Risk score" <;>
      cases cd.lookup "Environment Risk Score" <;>
        cases cd.lookup "Controversy Score" <;> simp
  · intro f hf
    unfold ModelInterpretabilityAgent.analyze_features at hf
    revert hf
    cases cd.lookup "Total ESG Risk score" <;>
      cases cd.lookup "Environment Risk Score" <;>
        cases cd.lookup "Controversy Score" <;>
          intro hf <;>
          simp only [List.append_nil, List.nil_append, List.mem_append,
            List.mem_singleton, List.not_mem_nil, or_false, false_or] at hf <;>
          (try casesm* _ ∨ _) <;> subst_vars <;> dsimp only <;>
          split_ifs <;> simp
  · have hempty : ModelInterpretabilityAgent.analyze_features cd = [] := by
      unfold ModelInterpretabilityAgent.analyze_features
      rw [hT, hE, hC]
      rfl
    refine ⟨hempty, by rw [hempty]; rfl, fun hcom hrisk hconf => ?_⟩
    rw [hempty]
    unfold ModelInterpretabilityAgent.generate_explanation
    split_ifs <;>
      (intro hinf
       have hmem := hinf.subset
        (show ('P' : Char) ∈ ("Primary factor").data by decide)
       simp only [String.data_append, List.mem_append,
         iff_false_intro hcom, iff_false_intro hrisk, iff_false_intro hconf,
         or_false, false_or] at hmem <;>
       exact absurd hmem (by decide))

/-- C10 witness: snake_case-only company data yields no key factors and an
explanation without the "Primary factor" sentence. -/
theorem analyze_features_explanation_spec_witness :
    (([("total_esg_risk_score", (25 : ℚ))] :
        List (String × ℚ)).lookup "Total ESG Risk score" = none) ∧
    (ModelInterpretabilityAgent.analyze_features
        [("total_esg_risk_score", (25 : ℚ))] = [] ∧
      (ModelInterpretabilityAgent.analyze_features
        [("total_esg_risk_score", (25 : ℚ))]).take 5 = [] ∧
      (¬ ("Primary factor").data <:+:
        (ModelInterpretabilityAgent.generate_explanation "Medium" (mkRat 1 2)
          (ModelInterpretabilityAgent.analyze_features
            [("total_esg_risk_score", (25 : ℚ))]) "TestCo").data)) := by
  refine ⟨by decide, ?_⟩
  obtain ⟨h1, h2, h3⟩ := (analyze_features_explanation_spec
    [("total_esg_risk_score", (25 : ℚ))] "Medium" (mkRat 1 2) "TestCo").2.2
    (by decide) (by decide) (by decide)
  exact ⟨h1, h2, h3 (by decide) (by decide) (by decide)⟩

/-- The value at the argmax index is the maximum of the list. -/
theorem argmax_getD_spec (ps : List ℚ) (hne : ps ≠ []) :
    ps.getD (argmaxIdx ps) 0 ∈ ps ∧
    ∀ x ∈ ps, x ≤ ps.getD (argmaxIdx ps) 0 := by
  induction ps with
  | nil => exact absurd rfl hne
  | cons p rest ih =>
    cases rest with
    | nil =>
      refine ⟨by simp [argmaxIdx], ?_⟩
      intro x hx
      simp only [List.mem_singleton] at hx
      simp [argmaxIdx, hx]
    | cons q rs =>
      obtain ⟨ihmem, ihle⟩ := ih (by simp)
      have hunfold : argmaxIdx (p :: q :: rs) =
          if p < (q :: rs).getD (argmaxIdx (q :: rs)) 0 then
            argmaxIdx (q :: rs) + 1 else 0 := rfl
      by_cases hp : p < (q :: rs).getD (argmaxIdx (q :: rs)) 0
      · rw [hunfold, if_pos hp, List.getD_cons_succ]
        refine ⟨List.mem_cons_of_mem p ihmem, ?_⟩
        intro x hx
        rcases List.mem_cons.mp hx with rfl | hx2
        · exact le_of_lt hp
        · exact ihle x hx2
      · rw [hunfold, if_neg hp, List.getD_cons_zero]
        refine ⟨List.mem_cons_self p (q :: rs), ?_⟩
        intro x hx
        rcases List.mem_cons.mp hx with rfl | hx2
        · exact le_refl x
        · exact le_trans (ihle x hx2) (not_lt.mp hp)

/-- A successful association-list lookup returns one of the stored
values. -/
theorem lookup_mem_snd {k : Nat} {v : String} :
    ∀ (l : List (Nat × String)), l.lookup k = some v →
      v ∈ l.map Prod.snd := by
  intro l
  induction l with
  | nil => intro h; exact Option.noConfusion h
  | cons a t ih =>
    intro h
    rw [List.lookup_cons] at h
    cases hk : (k == a.1) with
    | true =>
      rw [hk] at h
      simp only [List.map_cons, List.mem_cons]
      exact Or.inl (Option.some.inj h).symm
    | false =>
      rw [hk] at h
      exact List.mem_cons_of_mem _ (ih h)

/-- C8 (amended) In the model-inference path, on a valid softmax output
(non-empty, non-negative, summing to 1) the interpretation signal's
confidence is exactly the maximum class probability — hence in [0,1] —
and the risk level is either a label of the model's declared mapping or
"Unknown" (the latter when the argmax class is absent from the mapping);
the probability vector is passed through unchanged. -/
theorem interpretation_inference_confidence (menv : ModelEnv)
    (pred : Prediction) (ps : List ℚ) (hmodel : menv.hasModel = true)
    (hm : menv.infer = InferOutcome.probs ps) (hne : ps ≠ [])
    (hnn : ∀ x ∈ ps, 0 ≤ x) (hsum : ps.sum = 1) :
    (0 ≤ (ModelInterpretabilityAgent.interpretationSignal menv pred).2.1 ∧
      (ModelInterpretabilityAgent.interpretationSignal menv pred).2.1 ≤ 1) ∧
    (ModelInterpretabilityAgent.interpretationSignal menv pred).2.1 ∈ ps ∧
    (∀ x ∈ ps,
      x ≤ (ModelInterpretabilityAgent.interpretationSignal menv pred).2.1) ∧
    ((ModelInterpretabilityAgent.interpretationSignal menv pred).1 ∈
        menv.label_mapping_inv.map Prod.snd ∨
      (ModelInterpretabilityAgent.interpretationSignal menv pred).1 =
        "Unknown") ∧
    (ModelInterpretabilityAgent.interpretationSignal menv pred).2.2 =
      some ps := by
  have hsig : ModelInterpretabilityAgent.interpretationSignal menv pred =
      ((menv.label_mapping_inv.lookup (argmaxIdx ps)).getD "Unknown",
        ps.getD (argmaxIdx ps) 0, some ps) := by
    unfold ModelInterpretabilityAgent.interpretationSignal
      ModelInterpretabilityAgent.run_inference
    rw [hmodel, hm]
    rfl
  rw [hsig]
  obtain ⟨hmem, hle⟩ := argmax_getD_spec ps hne
  refine ⟨⟨hnn _ hmem, ?_⟩, hmem, hle, ?_, rfl⟩
  · calc ps.getD (argmaxIdx ps) 0 ≤ ps.sum := List.single_le_sum hnn _ hmem
      _ = 1 := hsum
  · cases hl : menv.label_mapping_inv.lookup (argmaxIdx ps) with
    | none => exact Or.inr rfl
    | some v => exact Or.inl (lookup_mem_snd _ hl)

/-- C8 (amended) witness: a three-class distribution with maximum 1/2. -/
theorem interpretation_inference_confidence_witness :
    ((⟨true, [(0, "Low"), (1, "Medium"), (2, "High")], none,
        InferOutcome.probs [mkRat 1 4, mkRat 1 2, mkRat 1 4]⟩ :
      ModelEnv).hasModel = true) ∧
    (0 ≤ (ModelInterpretabilityAgent.interpretationSignal
        ⟨true, [(0, "Low"), (1, "Medium"), (2, "High")], none,
          InferOutcome.probs [mkRat 1 4, mkRat 1 2, mkRat 1 4]⟩
        ⟨none, none⟩).2.1 ∧
      (ModelInterpretabilityAgent.interpretationSignal
        ⟨true, [(0, "Low"), (1, "Medium"), (2, "High")], none,
          InferOutcome.probs [mkRat 1 4, mkRat 1 2, mkRat 1 4]⟩
        ⟨none, none⟩).2.1 ≤ 1) := by
  refine ⟨rfl, ?_⟩
  exact (interpretation_inference_confidence
    ⟨true, [(0, "Low"), (1, "Medium"), (2, "High")], none,
      InferOutcome.probs [mkRat 1 4, mkRat 1 2, mkRat 1 4]⟩ ⟨none, none⟩
    [mkRat 1 4, mkRat 1 2, mkRat 1 4] rfl rfl (by simp) (by decide)
    (by simp only [List.sum_cons, List.sum_nil, Rat.mkRat_eq_div]; norm_num)).1

/-- C8 counterexample: in the no-model path the stage passes the
caller-supplied confidence through unvalidated — here 3/2, which is not in
[0,1] and not a class probability — and in the model path a caught
inference exception also yields risk level "Unknown", so "Unknown" is not
confined to the no-model path. -/
theorem interpretation_confidence_unvalidated :
    (ModelInterpretabilityAgent.interpretationSignal
        ⟨false, [], none, InferOutcome.raises⟩
        ⟨some "Medium", some (mkRat 3 2)⟩).2.1 = mkRat 3 2 ∧
    ¬ ((ModelInterpretabilityAgent.interpretationSignal
        ⟨false, [], none, InferOutcome.raises⟩
        ⟨some "Medium", some (mkRat 3 2)⟩).2.1 ≤ 1) ∧
    (ModelInterpretabilityAgent.interpretationSignal
        ⟨true, [(0, "Low")], none, InferOutcome.raises⟩
        ⟨none, none⟩).1 = "Unknown" ∧
    (⟨true, [(0, "Low")], none, InferOutcome.raises⟩ : ModelEnv).hasModel =
      true := by
  refine ⟨rfl, by decide, rfl, rfl⟩

/-- C7 counterexample: with the LLM provider configured, a failing
completion call does not degrade to the noted fallback — the stage raises
a `ValueError` while formatting the model stage's percent-string
confidence into the prompt, and the error propagates to the caller. -/
theorem synthesis_error_propagates :
    errorOf (DiscussionOrchestrator.process
        ⟨true, GroqOutcome.httpError 500⟩ "TestCo"
        [HistoryEntry.news
          { agent := "ESG News Analyst", summary := "s", key_themes := [],
            sentiment := "mixed", risk_indicators := [],
            total_articles := some 1, controversy_count := some 1 },
         HistoryEntry.model
          { agent := "Model Explainer", risk_level := "High",
            confidence := "85.00%", probabilities := none, explanation := "e",
            key_factors := [], model_accuracy := "N/A" }]) =
      some "ValueError: unknown format code for str" := by decide

/-- C7 (amended) Whenever the LLM provider is unconfigured, the synthesis
stage returns the deterministic rule-based fallback: a well-formed result
carrying the `note` field flagging fallback mode and no `powered_by`
field, with no error propagating.  Whenever the provider is configured,
the stage raises while formatting the percent-string confidence into the
prompt (before any HTTP outcome matters), so call failures never reach a
noted fallback result. -/
theorem synthesis_fallback_behavior (genv : GroqEnv) (company : String)
    (history : List HistoryEntry) :
    (genv.available = false →
      ∃ r, DiscussionOrchestrator.process genv company history =
          Except.ok r ∧
        r.note = some "Using rule-based synthesis (Groq API not configured)" ∧
        r.powered_by = none) ∧
    (genv.available = true →
      ∃ e, DiscussionOrchestrator.process genv company history =
        Except.error e) := by
  obtain ⟨av, outc⟩ := genv
  constructor
  · intro hav
    cases hav
    exact ⟨_, rfl, rfl, rfl⟩
  · intro hav
    cases hav
    exact ⟨"ValueError: unknown format code for str", rfl⟩

/-- C7 (amended) witness: both branches at concrete environments. -/
theorem synthesis_fallback_behavior_witness :
    (∃ r, DiscussionOrchestrator.process ⟨false, GroqOutcome.exn⟩ "W" [] =
        Except.ok r ∧
      r.note = some "Using rule-based synthesis (Groq API not configured)" ∧
      r.powered_by = none) ∧
    (∃ e, DiscussionOrchestrator.process ⟨true, GroqOutcome.exn⟩ "W" [] =
      Except.error e) := by
  exact ⟨(synthesis_fallback_behavior ⟨false, GroqOutcome.exn⟩ "W" []).1 rfl,
    (synthesis_fallback_behavior ⟨true, GroqOutcome.exn⟩ "W" []).2 rfl⟩

/-- C1 counterexample: after a full three-stage run the returned report's
conversation log holds two entries (news, model) — the synthesis result is
never appended — so it does not hold one entry per completed stage (which
would be three). -/
theorem pipeline_conversation_log_two_entries :
    (AgentPipeline.run ⟨false, [], none, InferOutcome.raises⟩
        ⟨false, GroqOutcome.exn⟩ "TestCo" []
        [{ title := some "Solar push",
           description := some "renewable investment" }]
        ⟨some "Medium", none⟩).toOption.map
      (fun r => r.conversation_log.length) = some 2 ∧ (2 : Nat) ≠ 3 := by
  exact ⟨by decide, by decide⟩

/-- C1 (amended) Every successful pipeline run executes the stages in the
fixed order news, model interpretation, synthesis; the news result is
appended to the shared history before the model stage and the model result
before the synthesis stage, and the returned conversation log is exactly
the news entry followed by the model entry (the synthesis result is
returned only under `agents.synthesis`, never appended); the synthesis
stage consumed exactly that two-entry history. -/
theorem pipeline_history_order (menv : ModelEnv) (genv : GroqEnv)
    (company : String) (cd : List (String × ℚ)) (arts : List Article)
    (pred : Prediction) (r : FinalReport)
    (h : AgentPipeline.run menv genv company cd arts pred = Except.ok r) :
    r.conversation_log =
      [HistoryEntry.news r.agents.news_analysis,
       HistoryEntry.model r.agents.model_interpretation] ∧
    DiscussionOrchestrator.process genv company r.conversation_log =
      Except.ok r.agents.synthesis := by
  unfold AgentPipeline.run at h
  obtain ⟨nr, hn, h⟩ := bind_eq_ok _ _ _ h
  obtain ⟨mr, hm, h⟩ := bind_eq_ok _ _ _ h
  obtain ⟨sr, hs, h⟩ := bind_eq_ok _ _ _ h
  have hr := Except.ok.inj h
  subst hr
  exact ⟨rfl, hs⟩

set_option maxRecDepth 4000 in
/-- C1 (amended) witness: a concrete run with no news, no model and an
unconfigured LLM provider. -/
theorem pipeline_history_order_witness :
    ∃ r, AgentPipeline.run ⟨false, [], none, InferOutcome.raises⟩
        ⟨false, GroqOutcome.exn⟩ "W" [] [] ⟨none, none⟩ = Except.ok r ∧
      r.conversation_log =
        [HistoryEntry.news r.agents.news_analysis,
         HistoryEntry.model r.agents.model_interpretation] := by
  have h := eq_ok_of_toOption
    (AgentPipeline.run ⟨false, [], none, InferOutcome.raises⟩
      ⟨false, GroqOutcome.exn⟩ "W" [] [] ⟨none, none⟩)
    { company := "W"
      agents :=
        { news_analysis :=
            { agent := "ESG News Analyst"
              summary := "No recent news available for analysis."
              key_themes := []
              sentiment := "neutral"
              risk_indicators := []
              total_articles := none
              controversy_count := none }
          model_interpretation :=
            { agent := "Model Explainer"
              risk_level := "Unknown"
              confidence := "0.00%"
              probabilities := none
              explanation := "The model predicts W has \x27Unknown\x27 ESG risk with 0.0% confidence. Lower confidence suggests borderline classification or limited data."
              key_factors := []
              model_accuracy := "N/A" }
          synthesis :=
            { agent := "ESG Insight Orchestrator"
              synthesis := "**W ESG Analysis Summary:**\n\nModel Assessment: Unknown risk (0.00% confidence)\nNews Sentiment: neutral based on 0 articles\nNews-Model Alignment: Strong alignment\n\n"
              news_model_alignment := "Strong alignment"
              recommendations := ["Maintain current ESG monitoring practices",
                "Continue tracking sustainability metrics quarterly"]
              overall_risk_assessment := "Moderate: Standard monitoring recommended"
              powered_by := none
              note := some "Using rule-based synthesis (Groq API not configured)" } }
      conversation_log :=
        [HistoryEntry.news
          { agent := "ESG News Analyst"
            summary := "No recent news available for analysis."
            key_themes := []
            sentiment := "neutral"
            risk_indicators := []
            total_articles := none
            controversy_count := none },
         HistoryEntry.model
          { agent := "Model Explainer"
            risk_level := "Unknown"
            confidence := "0.00%"
            probabilities := none
            explanation := "The model predicts W has \x27Unknown\x27 ESG risk with 0.0% confidence. Lower confidence suggests borderline classification or limited data."
            key_factors := []
            model_accuracy := "N/A" }] }
    (by decide)
  exact ⟨_, h, (pipeline_history_order ⟨false, [], none, InferOutcome.raises⟩
    ⟨false, GroqOutcome.exn⟩ "W" [] [] ⟨none, none⟩ _ h).1⟩

end ESGAgents
